import Mathlib

/-!
Shallow embedding of the mortqz storefront's cart/order workflow.

Conventions of the embedding:
* Money (`DecimalField` with 2 decimal places) is modelled as `Int`, in cents;
  all the source's arithmetic on prices is exact, so this is value-faithful.
* Database tables are lists of rows; query-set iteration order is list order.
* `Option` models SQL NULL / Python `None`; a failed `int()` parse is `none`.
* Endpoint functions return the HTTP response together with the new database
  state; Django's `transaction.atomic` means an error response leaves the
  state unchanged, which the functions realize by returning the input state.
-/

namespace Mortqz

/-- `catalog.models.Product` (the fields read by the cart views). -/
structure Product where
  id : Nat
  price : Int
  currency : String
  track_inventory : Bool
  stock_quantity : Nat
  deriving DecidableEq, Repr

/-- `catalog.models.ProductVariant` (the fields read by the cart views). -/
structure ProductVariant where
  id : Nat
  price : Int
  currency : String
  track_inventory : Bool
  stock_quantity : Nat
  deriving DecidableEq, Repr

/-- `orders.models.CartItem`: a cart line row. `product`/`variant` are the
foreign-key columns (`Option` = nullable). -/
structure CartItem where
  id : Nat
  cart : Nat
  product : Option Nat
  variant : Option Nat
  quantity : Nat
  deriving DecidableEq, Repr

/-- The relational state the cart views touch. `nextItemId` models the
auto-increment primary key of `CartItem`. -/
structure Db where
  products : List Product
  variants : List ProductVariant
  items : List CartItem
  nextItemId : Nat
  deriving DecidableEq, Repr

/-- A JSON/HTTP response as produced by the views in `orders/views.py`:
optional fields model JSON keys that are present only on some paths, and
`redirect` models the non-AJAX `redirect("orders:cart_detail")` answers. -/
structure HttpResp where
  status : Nat := 200
  ok : Option Bool := none
  error : Option String := none
  out_of_stock : Option Bool := none
  cart_count : Option Nat := none
  subtotal : Option Int := none
  currency : Option String := none
  item_id : Option Nat := none
  item_quantity : Option Nat := none
  line_total : Option Int := none
  adjusted : Option Bool := none
  message : Option String := none
  redirect : Bool := false
  deriving DecidableEq, Repr

/-- Python's `s or fallback` on strings (empty string is falsy). -/
def strOr (s fallback : String) : String :=
  if s = "" then fallback else s

def findProduct (db : Db) (pid : Nat) : Option Product :=
  db.products.find? (fun p => p.id == pid)

def findVariant (db : Db) (vid : Nat) : Option ProductVariant :=
  db.variants.find? (fun v => v.id == vid)

/-- The dynamic argument of `_get_stock_info`: either a `Product` or a
`ProductVariant`. -/
inductive StockHolder where
  | prod (p : Product)
  | var (v : ProductVariant)
  deriving DecidableEq, Repr

/-- `orders.views._get_stock_info`: `(track_inventory, stock_quantity)` of a
product or variant (`stock_quantity` is a non-null `PositiveIntegerField`,
so the `or 0` in the source is the identity). -/
def _get_stock_info : StockHolder → Bool × Nat
  | .prod p => (p.track_inventory, p.stock_quantity)
  | .var v => (v.track_inventory, v.stock_quantity)

/-- `orders.views._item_unit_price_and_currency`. Dangling foreign keys
cannot occur under Django's `CASCADE`; a failed lookup falls through to the
source's final `(Decimal("0.00"), "SAR")` line. -/
def _item_unit_price_and_currency (db : Db) (it : CartItem) : Int × String :=
  match it.variant with
  | some vid =>
    match findVariant db vid with
    | some v => (v.price, strOr v.currency "SAR")
    | none => (0, "SAR")
  | none =>
    match it.product with
    | some pid =>
      match findProduct db pid with
      | some p => (p.price, strOr p.currency "SAR")
      | none => (0, "SAR")
    | none => (0, "SAR")

/-- The rows of a given cart, in iteration order. -/
def cartRows (db : Db) (cartId : Nat) : List CartItem :=
  db.items.filter (fun it => it.cart == cartId)

/-- `orders.views._cart_items_count`: sum of the quantities in the cart. -/
def _cart_items_count (db : Db) (cartId : Nat) : Nat :=
  ((cartRows db cartId).map (fun it => it.quantity)).sum

/-- The `for it in items_qs` loop of `_calc_cart_subtotal`, threading the
`subtotal` and `currency` accumulators. -/
def subtotalLoop (db : Db) : List CartItem → Int → String → Int × String
  | [], s, c => (s, c)
  | it :: rest, s, c =>
    let pc := _item_unit_price_and_currency db it
    subtotalLoop db rest (s + pc.1 * it.quantity) (if pc.2 ≠ "" then pc.2 else c)

/-- `orders.views._calc_cart_subtotal`. -/
def _calc_cart_subtotal (db : Db) (cartId : Nat) : Int × String :=
  subtotalLoop db (cartRows db cartId) 0 "SAR"

/-- `JsonResponse({"ok": False, "error": msg}, status=400)`. -/
def resp400 (msg : String) : HttpResp :=
  { status := 400, ok := some false, error := some msg }

/-- `get_object_or_404` failing. -/
def resp404 : HttpResp := { status := 404 }

/-- The filter key used by `cart_add` for an existing line: in the product
branch `p = some pid, v = none` (`product=product, variant__isnull=True`),
in the variant branch `p = none, v = some vid`. -/
def lineKey (cartId : Nat) (p v : Option Nat) (it : CartItem) : Bool :=
  it.cart == cartId && it.product == p && it.variant == v

/-- The per-branch body of `orders.views.cart_add` (the source's product and
variant branches are textually identical up to the filter key, the stock
object and the unavailable-message, which are the parameters here). -/
def addLine (db : Db) (cartId : Nat) (p v : Option Nat) (obj : StockHolder)
    (unavailableMsg : String) (quantity : Nat) : HttpResp × Db :=
  let existing_qty := ((db.items.find? (lineKey cartId p v)).map (fun it => it.quantity)).getD 0
  let ts := _get_stock_info obj
  let requested_total := existing_qty + quantity
  if ts.1 ∧ ts.2 ≤ 0 then
    (resp400 unavailableMsg, db)
  else if ts.1 ∧ ts.2 < requested_total then
    (resp400 "الكمية المطلوبة غير متوفرة بالمخزون.", db)
  else
    match db.items.find? (lineKey cartId p v) with
    | some it0 =>
      let db' := { db with
        items := db.items.map (fun r => if r.id = it0.id then { r with quantity := requested_total } else r) }
      ({ ok := some true, cart_count := some (_cart_items_count db' cartId) }, db')
    | none =>
      let db' := { db with
        items := db.items ++ [{ id := db.nextItemId, cart := cartId, product := p, variant := v, quantity := quantity }],
        nextItemId := db.nextItemId + 1 }
      ({ ok := some true, cart_count := some (_cart_items_count db' cartId) }, db')

/-- `orders.views.cart_add`. `product_id`/`variant_id` are `none` when the
POST field is empty (Python falsy); `qty = none` models `int(qty_raw)`
raising `ValueError`. -/
def cart_add (db : Db) (cartId : Nat) (product_id variant_id : Option Nat)
    (qty : Option Int) : HttpResp × Db :=
  match qty with
  | none => (resp400 "قيمة الكمية غير صحيحة.", db)
  | some quantity =>
    if quantity < 1 ∨ 999 < quantity then
      (resp400 "الكمية يجب أن تكون بين 1 و 999.", db)
    else if product_id.isSome == variant_id.isSome then
      (resp400 "أرسل product_id أو variant_id فقط.", db)
    else
      match product_id with
      | some pid =>
        match findProduct db pid with
        | none => (resp404, db)
        | some product =>
          addLine db cartId (some pid) none (.prod product) "المنتج غير متوفر حالياً." quantity.toNat
      | none =>
        match variant_id with
        | some vid =>
          match findVariant db vid with
          | none => (resp404, db)
          | some variant =>
            addLine db cartId none (some vid) (.var variant) "المتغير غير متوفر حالياً." quantity.toNat
        | none => (resp400 "أرسل product_id أو variant_id فقط.", db)

/-- `orders.views.cart_summary`. -/
def cart_summary (db : Db) (cartId : Nat) : HttpResp × Db :=
  ({ ok := some true, cart_count := some (_cart_items_count db cartId) }, db)

/-- `stock_obj = item.variant if item.variant_id else item.product`. -/
def item_stock_obj (db : Db) (it : CartItem) : Option StockHolder :=
  match it.variant with
  | some vid => (findVariant db vid).map StockHolder.var
  | none =>
    match it.product with
    | some pid => (findProduct db pid).map StockHolder.prod
    | none => none

/-- `track, stock = _get_stock_info(stock_obj) if stock_obj else (False, 0)`. -/
def item_stock_info (db : Db) (it : CartItem) : Bool × Nat :=
  match item_stock_obj db it with
  | some o => _get_stock_info o
  | none => (false, 0)

/-- The `adjusted`-branch message of `cart_update`. -/
def adjustedMsg (final_qty : Nat) : String :=
  "تم تعديل الكمية إلى الحد المتاح (" ++ toString final_qty ++ ")."

/-- `orders.views.cart_update`. `ajax` models the
`X-Requested-With: XMLHttpRequest` header test. -/
def cart_update (db : Db) (cartId itemId : Nat) (qty : Option Int)
    (ajax : Bool) : HttpResp × Db :=
  match db.items.find? (fun it => it.id == itemId && it.cart == cartId) with
  | none => (resp404, db)
  | some item =>
    match qty with
    | none => (resp400 "قيمة الكمية غير صحيحة.", db)
    | some requested_qty =>
      if requested_qty < 1 ∨ 999 < requested_qty then
        (resp400 "الكمية يجب أن تكون بين 1 و 999.", db)
      else
        let ts := item_stock_info db item
        if ts.1 ∧ ts.2 ≤ 0 then
          if ajax then
            ({ status := 400, ok := some false,
               error := some "هذا المنتج أصبح غير متوفر. فضلاً احذفه من السلة.",
               out_of_stock := some true }, db)
          else
            ({ redirect := true }, db)
        else
          let fa : Nat × Bool :=
            if ts.1 ∧ (ts.2 : Int) < requested_qty then (ts.2, true) else (requested_qty.toNat, false)
          let db' := { db with
            items := db.items.map (fun r => if r.id = item.id then { r with quantity := fa.1 } else r) }
          if ajax then
            let sc := _calc_cart_subtotal db' cartId
            let up := (_item_unit_price_and_currency db' { item with quantity := fa.1 }).1
            ({ ok := some true,
               cart_count := some (_cart_items_count db' cartId),
               subtotal := some sc.1,
               currency := some sc.2,
               item_id := some item.id,
               item_quantity := some fa.1,
               line_total := some (up * fa.1),
               adjusted := if fa.2 then some true else none,
               message := if fa.2 then some (adjustedMsg fa.1) else none }, db')
          else
            ({ redirect := true }, db')

/-- `orders.views.cart_remove`. -/
def cart_remove (db : Db) (cartId itemId : Nat) (ajax : Bool) : HttpResp × Db :=
  match db.items.find? (fun it => it.id == itemId && it.cart == cartId) with
  | none => (resp404, db)
  | some item =>
    let db' := { db with items := db.items.filter (fun r => r.id != item.id) }
    if ajax then
      let sc := _calc_cart_subtotal db' cartId
      ({ ok := some true, cart_count := some (_cart_items_count db' cartId),
         subtotal := some sc.1, currency := some sc.2 }, db')
    else
      ({ redirect := true }, db')

/-- `orders.models.OrderItem` (the snapshot fields `recalc_totals` reads). -/
structure OrderItem where
  product_name : String
  sku : String
  currency : String
  unit_price : Int
  quantity : Nat
  deriving DecidableEq, Repr

/-- `orders.models.Order` (the fields touched by `save`/`recalc_totals`);
`items` is the `related_name="items"` reverse relation. -/
structure Order where
  order_number : String
  status : String
  currency : String
  subtotal : Int
  shipping_fee : Int
  discount_total : Int
  total : Int
  items : List OrderItem
  deriving DecidableEq, Repr

/-- `Order.recalc_totals`: recompute `subtotal` and `total` from the order's
items; mutates the in-memory record only (no save). -/
def Order.recalc_totals (o : Order) : Order :=
  let subtotal := o.items.foldl (fun s it => s + it.unit_price * (it.quantity : Int)) (0 : Int)
  let computed_total := subtotal + o.shipping_fee - o.discount_total
  { o with
    subtotal := subtotal,
    total := if computed_total < 0 then 0 else computed_total }

/-- The `allowed_chars` alphabet of `Order.save`'s `get_random_string` call. -/
def order_number_alphabet : String := "ABCDEFGHJKLMNPQRSTUVWXYZ23456789"

/-- `django.utils.crypto.get_random_string(len, allowed_chars)`: the random
source is modelled as the list of drawn alphabet indices. -/
def get_random_string (idx : List (Fin 32)) : String :=
  ⟨idx.map (fun i => order_number_alphabet.data.get (Fin.cast (by decide) i))⟩

/-- `timezone.now().strftime("%Y")`, zero-padded to four digits; for the years
1000–9999 this is exactly `%Y`. -/
def yearStr4 (y : Nat) : String :=
  ⟨[Nat.digitChar (y / 1000 % 10), Nat.digitChar (y / 100 % 10),
    Nat.digitChar (y / 10 % 10), Nat.digitChar (y % 10)]⟩

/-- `Order.save`: assign `order_number` on first save when it is empty.
`y` is the current year and `idx` the indices drawn by `get_random_string`
(the method's two sources of nondeterminism, passed explicitly). -/
def Order.save (y : Nat) (idx : List (Fin 32)) (o : Order) : Order :=
  if o.order_number = "" then
    { o with order_number := yearStr4 y ++ get_random_string idx }
  else
    o

/-- `accounts.models.Address.AddressType`. -/
inductive AddressType where
  | shipping
  | billing
  deriving DecidableEq, Repr

/-- `accounts.models.Address` (the fields `save` reads). -/
structure Address where
  id : Nat
  user : Nat
  type : AddressType
  is_default : Bool
  deriving DecidableEq, Repr

/-- `catalog.models.ProductImage` (the fields `save` reads). -/
structure ProductImage where
  id : Nat
  product : Nat
  is_primary : Bool
  deriving DecidableEq, Repr

/-- Django's `Model.save` row write: update the row with the same primary key
if one exists, else insert the row at the end of the table. -/
def upsertRows {α : Type} (pk : α → Nat) (db : List α) (a : α) : List α :=
  if db.any (fun r => pk r == pk a) then
    db.map (fun r => if pk r = pk a then a else r)
  else
    db ++ [a]

/-- `qs.filter(sib).exclude(pk=a.pk).update(...)`: apply `clr` to every row
that satisfies `sib` and is not the saved row. -/
def clearSiblings {α : Type} (pk : α → Nat) (sib : α → Bool) (clr : α → α)
    (db : List α) (a : α) : List α :=
  db.map (fun r => if sib r ∧ pk r ≠ pk a then clr r else r)

/-- `accounts.models.Address.save`: write the row, then, if it is a default,
clear `is_default` on the user's other addresses of the same type. -/
def Address.save (db : List Address) (a : Address) : List Address :=
  let db1 := upsertRows (fun r => r.id) db a
  if a.is_default then
    clearSiblings (fun r => r.id)
      (fun r => r.user == a.user && r.type == a.type)
      (fun r => { r with is_default := false }) db1 a
  else
    db1

/-- `catalog.models.ProductImage.save`: write the row, then, if it is primary,
clear `is_primary` on the product's other images. -/
def ProductImage.save (db : List ProductImage) (a : ProductImage) : List ProductImage :=
  let db1 := upsertRows (fun r => r.id) db a
  if a.is_primary then
    clearSiblings (fun r => r.id)
      (fun r => r.product == a.product)
      (fun r => { r with is_primary := false }) db1 a
  else
    db1

/-- The `orders_cartitem_requires_product_or_variant` check constraint:
`(product NOT NULL AND variant NULL) OR (product NULL AND variant NOT NULL)`. -/
def cartItemCheckOk (it : CartItem) : Bool :=
  (it.product.isSome && it.variant.isNone) || (it.product.isNone && it.variant.isSome)

/-- The column tuple of the `orders_unique_cartitem_per_cart_product_variant`
unique constraint. -/
def cartItemKey (it : CartItem) : Nat × Option Nat × Option Nat :=
  (it.cart, it.product, it.variant)

/-- SQL equality on a nullable column as a unique index compares it: a match
requires both sides non-NULL and equal (`NULL = NULL` is unknown, never a
match; NULLs are distinct in SQLite — the configured backend — and in
PostgreSQL/MySQL alike). -/
def sqlEqNonNull (a b : Option Nat) : Bool :=
  match a, b with
  | some x, some y => x == y
  | _, _ => false

/-- When the declared unique constraint fires: a candidate row conflicts with
a stored row only if every constrained column matches, with the nullable
`product`/`variant` columns compared under SQL NULLS-distinct semantics
(`cart` is non-nullable, so it compares as plain equality). Django's
application-level `validate_unique` likewise skips any lookup containing a
`None` field, so it is no stricter. -/
def cartItemUniqueConflict (r it : CartItem) : Bool :=
  r.cart == it.cart
    && sqlEqNonNull r.product it.product
    && sqlEqNonNull r.variant it.variant

/-- Saving a new `CartItem` row as the constraint-checking storage layer sees
it: the insert succeeds when the check constraint holds for the row and the
unique constraint (under its NULLS-distinct comparison) does not fire
against any stored row. -/
def insertCartItem (rows : List CartItem) (it : CartItem) : Option (List CartItem) :=
  if cartItemCheckOk it ∧ rows.all (fun r => !cartItemUniqueConflict r it) then
    some (rows ++ [it])
  else
    none

/-! ### Helper lemmas -/

theorem foldl_add_price (l : List OrderItem) (s : Int) :
    l.foldl (fun s it => s + it.unit_price * (it.quantity : Int)) s
      = s + (l.map (fun it => it.unit_price * (it.quantity : Int))).sum := by
  induction l generalizing s with
  | nil => simp
  | cons it rest ih => simp [ih]; ring

theorem countP_clearSiblings {α : Type} (pk : α → Nat) (sib : α → Bool) (clr : α → α)
    (db1 : List α) (a : α) (q : α → Bool)
    (hclr : ∀ r, q (clr r) = false)
    (hq : ∀ r, q r = true → sib r = true) :
    (clearSiblings pk sib clr db1 a).countP q
      = db1.countP (fun r => (pk r == pk a) && q r) := by
  unfold clearSiblings
  induction db1 with
  | nil => simp
  | cons r rest ih =>
    simp only [List.map_cons, List.countP_cons, ih]
    congr 1
    by_cases hs : sib r ∧ pk r ≠ pk a
    · rw [if_pos hs, hclr r]
      have hb : (pk r == pk a) = false := by simpa using hs.2
      simp [hb]
    · rw [if_neg hs]
      by_cases hpk : pk r = pk a
      · simp [hpk]
      · have hsib : sib r = false := by
          cases hsr : sib r
          · rfl
          · exact absurd ⟨hsr, hpk⟩ hs
        have hqr : q r = false := by
          cases hqr' : q r
          · rfl
          · rw [hq r hqr'] at hsib; cases hsib
        have hb : (pk r == pk a) = false := by simpa using hpk
        simp [hb, hqr]

theorem countP_upsertRows {α : Type} (pk : α → Nat) (db : List α) (a : α) (q : α → Bool)
    (hids : (db.map pk).Nodup) (hqa : q a = true) :
    (upsertRows pk db a).countP (fun r => (pk r == pk a) && q r) = 1 := by
  unfold upsertRows
  by_cases hex : db.any (fun r => pk r == pk a) = true
  · rw [if_pos hex, List.countP_map]
    rw [List.countP_congr (q := fun x => pk x == pk a) ?_]
    · have h1 : db.countP (fun x => pk x == pk a) = (db.map pk).count (pk a) := by
        rw [List.count_eq_countP, List.countP_map]
        rfl
      obtain ⟨r, hr, hpk⟩ := List.any_eq_true.1 hex
      have hmem : pk a ∈ db.map pk := List.mem_map.2 ⟨r, hr, by simpa using hpk⟩
      rw [h1]
      exact List.count_eq_one_of_mem hids hmem
    · intro x _
      by_cases hpk : pk x = pk a <;> simp [Function.comp, hpk, hqa]
  · rw [if_neg hex, List.countP_append]
    have h0 : db.countP (fun r => (pk r == pk a) && q r) = 0 := by
      rw [List.countP_eq_zero]
      intro r hr hcontra
      refine hex (List.any_eq_true.2 ⟨r, hr, ?_⟩)
      rw [Bool.and_eq_true] at hcontra
      exact hcontra.1
    rw [h0]
    simp [hqa]

theorem mem_upsertRows_self {α : Type} (pk : α → Nat) (db : List α) (a : α) :
    a ∈ upsertRows pk db a := by
  unfold upsertRows
  by_cases hex : db.any (fun r => pk r == pk a) = true
  · rw [if_pos hex]
    obtain ⟨r, hr, hpk⟩ := List.any_eq_true.1 hex
    exact List.mem_map.2 ⟨r, hr, by simp [beq_iff_eq.1 hpk]⟩
  · rw [if_neg hex]
    exact List.mem_append.2 (Or.inr (List.mem_singleton.2 rfl))

theorem mem_clearSiblings_self {α : Type} (pk : α → Nat) (sib : α → Bool) (clr : α → α)
    (db1 : List α) (a : α) (h : a ∈ db1) :
    a ∈ clearSiblings pk sib clr db1 a := by
  unfold clearSiblings
  exact List.mem_map.2 ⟨a, h, by simp⟩

theorem mem_upsertRows_of_ne {α : Type} (pk : α → Nat) (db : List α) (a r : α)
    (hr : r ∈ db) (hpk : pk r ≠ pk a) : r ∈ upsertRows pk db a := by
  unfold upsertRows
  by_cases hex : db.any (fun x => pk x == pk a) = true
  · rw [if_pos hex]
    exact List.mem_map.2 ⟨r, hr, by rw [if_neg hpk]⟩
  · rw [if_neg hex]
    exact List.mem_append.2 (Or.inl hr)

theorem mem_clearSiblings_of_not_sib {α : Type} (pk : α → Nat) (sib : α → Bool)
    (clr : α → α) (db1 : List α) (a r : α) (hr : r ∈ db1) (hsib : sib r = false) :
    r ∈ clearSiblings pk sib clr db1 a := by
  unfold clearSiblings
  refine List.mem_map.2 ⟨r, hr, ?_⟩
  rw [if_neg]
  intro hc
  rw [hsib] at hc
  exact Bool.false_ne_true hc.1

theorem filter_ne_map_replace {α : Type} (pk : α → Nat) (a : α) (db : List α) :
    (db.map (fun r => if pk r = pk a then a else r)).filter (fun r => pk r != pk a)
      = db.filter (fun r => pk r != pk a) := by
  induction db with
  | nil => rfl
  | cons r rest ih =>
    simp only [List.map_cons, List.filter_cons]
    by_cases hpk : pk r = pk a
    · have hb : (pk r != pk a) = false := by simp [hpk]
      have hb' : (pk a != pk a) = false := by simp
      rw [if_pos hpk]
      simp only [hb, hb', Bool.false_eq_true, if_false, ih]
    · have hb : (pk r != pk a) = true := by simp [hpk]
      rw [if_neg hpk]
      simp only [hb, if_true, ih]

theorem filter_ne_upsertRows {α : Type} (pk : α → Nat) (db : List α) (a : α) :
    (upsertRows pk db a).filter (fun r => pk r != pk a)
      = db.filter (fun r => pk r != pk a) := by
  unfold upsertRows
  by_cases hex : db.any (fun r => pk r == pk a) = true
  · rw [if_pos hex]
    exact filter_ne_map_replace pk a db
  · rw [if_neg hex, List.filter_append]
    simp

/-! ### Claims -/

/-- C1: `recalc_totals` sets `subtotal` to the sum over the order's items of
`unit_price × quantity` (the snapshot price stored on each item), sets
`total` to `subtotal + shipping_fee - discount_total` floored at 0 (never
negative), and changes no other field of the in-memory order. -/
theorem C1_recalc_totals (o : Order) :
    (o.recalc_totals).subtotal
        = (o.items.map (fun it => it.unit_price * (it.quantity : Int))).sum
    ∧ (o.recalc_totals).total
        = max 0 ((o.items.map (fun it => it.unit_price * (it.quantity : Int))).sum
            + o.shipping_fee - o.discount_total)
    ∧ 0 ≤ (o.recalc_totals).total
    ∧ (o.recalc_totals).order_number = o.order_number
    ∧ (o.recalc_totals).status = o.status
    ∧ (o.recalc_totals).currency = o.currency
    ∧ (o.recalc_totals).shipping_fee = o.shipping_fee
    ∧ (o.recalc_totals).discount_total = o.discount_total
    ∧ (o.recalc_totals).items = o.items := by
  unfold Order.recalc_totals
  refine ⟨by simp [foldl_add_price], ?_, ?_, rfl, rfl, rfl, rfl, rfl, rfl⟩
  · simp only [foldl_add_price, Int.zero_add]
    split <;> omega
  · simp only [foldl_add_price, Int.zero_add]
    split <;> omega

/-- C4: after any save of an `Address` with `is_default = true`, exactly one
address of that `(user, type)` is default; the cleanup never alters the saved
record itself; addresses of other types are untouched; the same holds for
`ProductImage.is_primary` scoped per product. -/
theorem C4_default_uniqueness
    (dbA : List Address) (a : Address)
    (dbI : List ProductImage) (im : ProductImage)
    (hidsA : (dbA.map (fun r => r.id)).Nodup)
    (hidsI : (dbI.map (fun r => r.id)).Nodup)
    (ha : a.is_default = true) (him : im.is_primary = true) :
    (Address.save dbA a).countP
        (fun r => r.user == a.user && r.type == a.type && r.is_default) = 1
    ∧ a ∈ Address.save dbA a
    ∧ (∀ r ∈ dbA, r.id ≠ a.id → r.type ≠ a.type → r ∈ Address.save dbA a)
    ∧ (ProductImage.save dbI im).countP
        (fun r => r.product == im.product && r.is_primary) = 1
    ∧ im ∈ ProductImage.save dbI im
    ∧ (∀ r ∈ dbI, r.id ≠ im.id → r.product ≠ im.product → r ∈ ProductImage.save dbI im) := by
  simp only [Address.save, ProductImage.save, ha, him, if_true]
  refine ⟨?_, ?_, ?_, ?_, ?_, ?_⟩
  · rw [countP_clearSiblings _ _ _ _ _ _ (by intro r; simp) ?hq]
    case hq =>
      intro r h
      rw [Bool.and_eq_true] at h
      exact h.1
    exact countP_upsertRows _ _ _ _ hidsA (by simp [ha])
  · exact mem_clearSiblings_self _ _ _ _ _ (mem_upsertRows_self _ _ _)
  · intro r hr hid htype
    have hsib : (r.user == a.user && r.type == a.type) = false := by
      have hb : (r.type == a.type) = false := by simpa using htype
      simp [hb]
    exact mem_clearSiblings_of_not_sib _ _ _ _ _ _
      (mem_upsertRows_of_ne _ _ _ _ hr hid) hsib
  · rw [countP_clearSiblings _ _ _ _ _ _ (by intro r; simp) ?hqi]
    case hqi =>
      intro r h
      rw [Bool.and_eq_true] at h
      exact h.1
    exact countP_upsertRows _ _ _ _ hidsI (by simp [him])
  · exact mem_clearSiblings_self _ _ _ _ _ (mem_upsertRows_self _ _ _)
  · intro r hr hid hprod
    have hsib : (r.product == im.product) = false := by simpa using hprod
    exact mem_clearSiblings_of_not_sib _ _ _ _ _ _
      (mem_upsertRows_of_ne _ _ _ _ hr hid) hsib

/-- Example address table for witnesses: user 7 with two shipping rows and a
billing row, all flagged default. -/
def wAddrDb : List Address :=
  [⟨1, 7, .shipping, true⟩, ⟨2, 7, .shipping, true⟩, ⟨3, 7, .billing, true⟩]

/-- Example saved address for witnesses. -/
def wAddr : Address := ⟨2, 7, .shipping, true⟩

/-- Example image table for witnesses. -/
def wImgDb : List ProductImage := [⟨1, 4, true⟩, ⟨2, 4, false⟩]

/-- Example saved image for witnesses. -/
def wImg : ProductImage := ⟨2, 4, true⟩

/-- C4 witness: concrete tables where the saved default clears its siblings. -/
theorem C4_default_uniqueness_witness :
    ((wAddrDb.map (fun r => r.id)).Nodup
      ∧ (wImgDb.map (fun r => r.id)).Nodup
      ∧ wAddr.is_default = true ∧ wImg.is_primary = true)
    ∧ ((Address.save wAddrDb wAddr).countP
          (fun r => r.user == wAddr.user && r.type == wAddr.type && r.is_default) = 1
      ∧ wAddr ∈ Address.save wAddrDb wAddr
      ∧ (∀ r ∈ wAddrDb, r.id ≠ wAddr.id → r.type ≠ wAddr.type → r ∈ Address.save wAddrDb wAddr)
      ∧ (ProductImage.save wImgDb wImg).countP
          (fun r => r.product == wImg.product && r.is_primary) = 1
      ∧ wImg ∈ ProductImage.save wImgDb wImg
      ∧ (∀ r ∈ wImgDb, r.id ≠ wImg.id → r.product ≠ wImg.product → r ∈ ProductImage.save wImgDb wImg)) :=
  ⟨⟨by decide, by decide, rfl, rfl⟩,
    C4_default_uniqueness wAddrDb wAddr wImgDb wImg (by decide) (by decide) rfl rfl⟩

/-- C10: saving an `Address` with `is_default = false` leaves every other
address row (of any type) exactly as it was; likewise a non-primary
`ProductImage` save leaves the other image rows unchanged. -/
theorem C10_no_sibling_cleanup (dbA : List Address) (a : Address)
    (dbI : List ProductImage) (im : ProductImage)
    (ha : a.is_default = false) (him : im.is_primary = false) :
    (Address.save dbA a).filter (fun r => r.id != a.id)
        = dbA.filter (fun r => r.id != a.id)
    ∧ (ProductImage.save dbI im).filter (fun r => r.id != im.id)
        = dbI.filter (fun r => r.id != im.id) := by
  constructor
  · simp only [Address.save, ha, Bool.false_eq_true, if_false]
    exact filter_ne_upsertRows (fun r => r.id) dbA a
  · simp only [ProductImage.save, him, Bool.false_eq_true, if_false]
    exact filter_ne_upsertRows (fun r => r.id) dbI im

/-- C10 witness: concrete non-default saves leave all other rows intact. -/
theorem C10_no_sibling_cleanup_witness :
    ((⟨2, 7, .shipping, false⟩ : Address).is_default = false
      ∧ (⟨2, 4, false⟩ : ProductImage).is_primary = false)
    ∧ ((Address.save wAddrDb ⟨2, 7, .shipping, false⟩).filter (fun r => r.id != (2 : Nat))
        = wAddrDb.filter (fun r => r.id != (2 : Nat))
      ∧ (ProductImage.save wImgDb ⟨2, 4, false⟩).filter (fun r => r.id != (2 : Nat))
        = wImgDb.filter (fun r => r.id != (2 : Nat))) :=
  ⟨⟨rfl, rfl⟩, C10_no_sibling_cleanup wAddrDb ⟨2, 7, .shipping, false⟩ wImgDb ⟨2, 4, false⟩ rfl rfl⟩

/-- C6: on the first save of an `Order` with empty `order_number`, `save`
assigns the 4-digit current year followed by 8 characters drawn from the
fixed alphabet, which contains none of `0`, `1`, `O`, `I`; once set, the
order number is never reassigned by a later save. -/
theorem C6_order_number (y : Nat) (idx : List (Fin 32)) (o : Order)
    (h8 : idx.length = 8) (_hy1 : 1000 ≤ y) (_hy2 : y ≤ 9999) :
    (o.order_number = "" →
      (Order.save y idx o).order_number = yearStr4 y ++ get_random_string idx
      ∧ (yearStr4 y).length = 4
      ∧ (get_random_string idx).length = 8
      ∧ (∀ c ∈ (get_random_string idx).data, c ∈ order_number_alphabet.data)
      ∧ '0' ∉ order_number_alphabet.data
      ∧ '1' ∉ order_number_alphabet.data
      ∧ 'O' ∉ order_number_alphabet.data
      ∧ 'I' ∉ order_number_alphabet.data)
    ∧ (o.order_number ≠ "" → Order.save y idx o = o) := by
  constructor
  · intro h0
    refine ⟨by simp [Order.save, h0], rfl, ?_, ?_, by decide, by decide, by decide, by decide⟩
    · show (idx.map _).length = 8
      rw [List.length_map, h8]
    · intro c hc
      obtain ⟨i, _, rfl⟩ := List.mem_map.1 hc
      exact List.get_mem _ _ _
  · intro h0
    simp [Order.save, h0]

/-- C6 witness: a concrete first save and a concrete later save. -/
theorem C6_order_number_witness :
    ((⟨0, by decide⟩ : Fin 32) :: List.replicate 7 (⟨31, by decide⟩ : Fin 32)).length = 8
    ∧ 1000 ≤ 2025 ∧ 2025 ≤ 9999
    ∧ (({ order_number := "", status := "draft", currency := "SAR", subtotal := 0,
          shipping_fee := 0, discount_total := 0, total := 0, items := [] : Order}.order_number = "" →
        (Order.save 2025 (⟨0, by decide⟩ :: List.replicate 7 ⟨31, by decide⟩)
            { order_number := "", status := "draft", currency := "SAR", subtotal := 0,
              shipping_fee := 0, discount_total := 0, total := 0, items := [] }).order_number
          = yearStr4 2025 ++ get_random_string (⟨0, by decide⟩ :: List.replicate 7 ⟨31, by decide⟩)
        ∧ (yearStr4 2025).length = 4
        ∧ (get_random_string (⟨0, by decide⟩ :: List.replicate 7 ⟨31, by decide⟩)).length = 8
        ∧ (∀ c ∈ (get_random_string (⟨0, by decide⟩ :: List.replicate 7 ⟨31, by decide⟩)).data,
            c ∈ order_number_alphabet.data)
        ∧ '0' ∉ order_number_alphabet.data
        ∧ '1' ∉ order_number_alphabet.data
        ∧ 'O' ∉ order_number_alphabet.data
        ∧ 'I' ∉ order_number_alphabet.data)
      ∧ ({ order_number := "", status := "draft", currency := "SAR", subtotal := 0,
           shipping_fee := 0, discount_total := 0, total := 0, items := [] : Order}.order_number ≠ "" →
          Order.save 2025 (⟨0, by decide⟩ :: List.replicate 7 ⟨31, by decide⟩)
            { order_number := "", status := "draft", currency := "SAR", subtotal := 0,
              shipping_fee := 0, discount_total := 0, total := 0, items := [] }
          = { order_number := "", status := "draft", currency := "SAR", subtotal := 0,
              shipping_fee := 0, discount_total := 0, total := 0, items := [] })) :=
  ⟨by decide, by decide, by decide,
    C6_order_number 2025 (⟨0, by decide⟩ :: List.replicate 7 ⟨31, by decide⟩) _
      (by decide) (by decide) (by decide)⟩

theorem sqlEqNonNull_none_right (a : Option Nat) : sqlEqNonNull a none = false := by
  cases a <;> rfl

/-- C7 counterexample: the claim's "no two rows for the same combination
exist" is false of the storage layer. Both rows are check-valid, the stored
row has the very same `(cart, product, variant)` tuple as the candidate, and
the insert is nevertheless accepted, leaving two rows of that combination
(the unique constraint compares the NULL `variant` column as distinct). -/
theorem C7_cartitem_constraints_counterexample :
    cartItemCheckOk ⟨0, 1, some 5, none, 1⟩ = true
    ∧ cartItemCheckOk ⟨1, 1, some 5, none, 2⟩ = true
    ∧ cartItemKey (⟨0, 1, some 5, none, 1⟩ : CartItem) = cartItemKey ⟨1, 1, some 5, none, 2⟩
    ∧ insertCartItem [⟨0, 1, some 5, none, 1⟩] ⟨1, 1, some 5, none, 2⟩
        = some [⟨0, 1, some 5, none, 1⟩, ⟨1, 1, some 5, none, 2⟩] := by
  decide

/-- C7 (amended): the check constraint still rejects a `CartItem` with both
`product` and `variant` set, or with neither, so every persisted row has
exactly one reference; but because every such valid row has a NULL in
`product` or `variant` and the unique constraint compares NULLs as
distinct, that constraint never fires against a valid candidate, and the
insert of a valid row always succeeds — duplicates of the same
`(cart, product, variant)` combination included. -/
theorem C7_cartitem_constraints (rows : List CartItem) (it : CartItem) :
    ((it.product.isSome ∧ it.variant.isSome) ∨ (it.product.isNone ∧ it.variant.isNone) →
      insertCartItem rows it = none)
    ∧ (cartItemCheckOk it = true →
      ∀ r : CartItem, cartItemUniqueConflict r it = false)
    ∧ (cartItemCheckOk it = true →
      insertCartItem rows it = some (rows ++ [it]))
    ∧ (∀ rows', insertCartItem rows it = some rows' →
        (∀ s ∈ rows, cartItemCheckOk s = true) →
        ∀ s ∈ rows', cartItemCheckOk s = true) := by
  have hnofire : cartItemCheckOk it = true →
      ∀ r : CartItem, cartItemUniqueConflict r it = false := by
    intro hok r
    have hnull : it.product = none ∨ it.variant = none := by
      rcases hp : it.product <;> rcases hv : it.variant <;>
        simp_all [cartItemCheckOk]
    rcases hnull with h | h <;>
      simp [cartItemUniqueConflict, h, sqlEqNonNull_none_right]
  refine ⟨?_, hnofire, ?_, ?_⟩
  · intro h
    cases hp : it.product <;> cases hv : it.variant <;>
      simp_all [insertCartItem, cartItemCheckOk]
  · intro hok
    unfold insertCartItem
    rw [if_pos]
    refine ⟨hok, List.all_eq_true.2 ?_⟩
    intro r _
    rw [hnofire hok r]
    rfl
  · intro rows' hins hok
    unfold insertCartItem at hins
    split_ifs at hins with hc
    · cases hins
      intro s hs
      rcases List.mem_append.1 hs with h | h
      · exact hok s h
      · rw [List.mem_singleton.1 h]
        exact hc.1

/-- C7 witness: a valid product line is inserted unconditionally — even next
to a stored row of the identical `(cart, product, variant)` combination —
and the check invariant holds on the concrete resulting table. -/
theorem C7_cartitem_constraints_witness :
    (cartItemCheckOk ⟨1, 1, some 5, none, 2⟩ = true
      ∧ (∀ s ∈ [(⟨0, 1, some 5, none, 1⟩ : CartItem)], cartItemCheckOk s = true))
    ∧ ((∀ r : CartItem, cartItemUniqueConflict r ⟨1, 1, some 5, none, 2⟩ = false)
      ∧ insertCartItem [⟨0, 1, some 5, none, 1⟩] ⟨1, 1, some 5, none, 2⟩
          = some ([⟨0, 1, some 5, none, 1⟩] ++ [⟨1, 1, some 5, none, 2⟩])
      ∧ (∀ s ∈ [(⟨0, 1, some 5, none, 1⟩ : CartItem)] ++ [⟨1, 1, some 5, none, 2⟩],
          cartItemCheckOk s = true)) :=
  ⟨⟨rfl, by decide⟩,
    (C7_cartitem_constraints [⟨0, 1, some 5, none, 1⟩] ⟨1, 1, some 5, none, 2⟩).2.1 rfl,
    (C7_cartitem_constraints [⟨0, 1, some 5, none, 1⟩] ⟨1, 1, some 5, none, 2⟩).2.2.1 rfl,
    (C7_cartitem_constraints [⟨0, 1, some 5, none, 1⟩] ⟨1, 1, some 5, none, 2⟩).2.2.2
      ([⟨0, 1, some 5, none, 1⟩] ++ [⟨1, 1, some 5, none, 2⟩])
      ((C7_cartitem_constraints [⟨0, 1, some 5, none, 1⟩] ⟨1, 1, some 5, none, 2⟩).2.2.1 rfl)
      (by decide)⟩

/-- C5: a cart-add request with an unparsable quantity, an out-of-range
quantity, or with both-or-neither of `product_id`/`variant_id`, is answered
with HTTP 400 and leaves the database state unchanged. -/
theorem C5_cart_add_validation (db : Db) (cartId : Nat)
    (product_id variant_id : Option Nat) (qty : Option Int) :
    (qty = none →
      (cart_add db cartId product_id variant_id qty).1.status = 400
      ∧ (cart_add db cartId product_id variant_id qty).2 = db)
    ∧ (∀ q, qty = some q → q < 1 ∨ 999 < q →
      (cart_add db cartId product_id variant_id qty).1.status = 400
      ∧ (cart_add db cartId product_id variant_id qty).2 = db)
    ∧ (product_id.isSome = variant_id.isSome →
      (cart_add db cartId product_id variant_id qty).1.status = 400
      ∧ (cart_add db cartId product_id variant_id qty).2 = db) := by
  refine ⟨?_, ?_, ?_⟩
  · rintro rfl
    exact ⟨rfl, rfl⟩
  · rintro q rfl hrange
    simp [cart_add, hrange, resp400]
  · intro hsel
    rcases qty with _ | q
    · exact ⟨rfl, rfl⟩
    · by_cases hr : q < 1 ∨ 999 < q
      · simp [cart_add, hr, resp400]
      · have hb : (product_id.isSome == variant_id.isSome) = true := by simp [hsel]
        simp [cart_add, hr, hb, resp400]

/-- Example catalog/cart state for witnesses: product 1 (tracked, stock 5) in
cart 1 with quantity 3, variant 1 (tracked, stock 5) in cart 1 with
quantity 8 (stock shrank below the stored quantity), and product 2 (tracked,
stock 0) in cart 2. -/
def wCartDb : Db :=
  { products := [⟨1, 1000, "SAR", true, 5⟩, ⟨2, 500, "SAR", true, 0⟩],
    variants := [⟨1, 2000, "USD", true, 5⟩],
    items := [⟨10, 1, some 1, none, 3⟩, ⟨11, 1, none, some 1, 8⟩, ⟨9, 2, some 2, none, 1⟩],
    nextItemId := 12 }

/-- C5 witness: a request with neither selector on a concrete cart. -/
theorem C5_cart_add_validation_witness :
    ((none : Option Nat).isSome = (none : Option Nat).isSome)
    ∧ ((cart_add wCartDb 1 none none (some 2)).1.status = 400
      ∧ (cart_add wCartDb 1 none none (some 2)).2 = wCartDb) :=
  ⟨rfl, (C5_cart_add_validation wCartDb 1 none none (some 2)).2.2 rfl⟩

/-! ### `addLine` branch lemmas for `cart_add` -/

theorem lineKey_quantity_update (cartId : Nat) (p v : Option Nat) (r : CartItem) (n : Nat) :
    lineKey cartId p v { r with quantity := n } = lineKey cartId p v r := rfl

theorem addLine_merge (db : Db) (cartId : Nat) (p v : Option Nat) (obj : StockHolder)
    (msg : String) (quantity : Nat) (it0 : CartItem)
    (hfind : db.items.find? (lineKey cartId p v) = some it0)
    (hcount : db.items.countP (lineKey cartId p v) ≤ 1)
    (hpass1 : ¬((_get_stock_info obj).1 = true ∧ (_get_stock_info obj).2 ≤ 0))
    (hpass2 : ¬((_get_stock_info obj).1 = true
        ∧ (_get_stock_info obj).2 < it0.quantity + quantity)) :
    (addLine db cartId p v obj msg quantity).1.ok = some true
    ∧ (addLine db cartId p v obj msg quantity).2.items.filter (lineKey cartId p v)
        = [{ it0 with quantity := it0.quantity + quantity }] := by
  have hmem : it0 ∈ db.items := List.mem_of_find?_eq_some hfind
  have hkey : lineKey cartId p v it0 = true := List.find?_some hfind
  simp only [addLine, hfind, Option.map_some', Option.getD_some]
  rw [if_neg hpass1, if_neg hpass2]
  refine ⟨rfl, ?_⟩
  show (db.items.map _).filter (lineKey cartId p v) = _
  rw [List.filter_map]
  have hcong : ∀ r : CartItem,
      (lineKey cartId p v ∘ fun r =>
        if r.id = it0.id then { r with quantity := it0.quantity + quantity } else r) r
        = lineKey cartId p v r := by
    intro r
    simp only [Function.comp_apply]
    by_cases hid : r.id = it0.id
    · rw [if_pos hid, lineKey_quantity_update]
    · rw [if_neg hid]
  rw [List.filter_congr (fun x _ => hcong x)]
  have h1 : it0 ∈ db.items.filter (lineKey cartId p v) := List.mem_filter.2 ⟨hmem, hkey⟩
  have hlen : (db.items.filter (lineKey cartId p v)).length = 1 := by
    rw [← List.countP_eq_length_filter]
    refine le_antisymm hcount ?_
    rw [List.countP_eq_length_filter]
    exact List.length_pos_of_mem h1
  obtain ⟨x, hx⟩ := List.length_eq_one.1 hlen
  rw [hx] at h1
  rw [← List.mem_singleton.1 h1] at hx
  rw [hx, List.map_singleton, if_pos rfl]

theorem addLine_unavailable (db : Db) (cartId : Nat) (p v : Option Nat) (obj : StockHolder)
    (msg : String) (quantity : Nat)
    (h : (_get_stock_info obj).1 = true ∧ (_get_stock_info obj).2 ≤ 0) :
    addLine db cartId p v obj msg quantity = (resp400 msg, db) := by
  simp only [addLine]
  rw [if_pos h]

theorem addLine_insufficient (db : Db) (cartId : Nat) (p v : Option Nat) (obj : StockHolder)
    (msg : String) (quantity : Nat) (it0 : CartItem)
    (hfind : db.items.find? (lineKey cartId p v) = some it0)
    (h1 : ¬((_get_stock_info obj).1 = true ∧ (_get_stock_info obj).2 ≤ 0))
    (h2 : (_get_stock_info obj).1 = true
        ∧ (_get_stock_info obj).2 < it0.quantity + quantity) :
    addLine db cartId p v obj msg quantity
      = (resp400 "الكمية المطلوبة غير متوفرة بالمخزون.", db) := by
  simp only [addLine, hfind, Option.map_some', Option.getD_some]
  rw [if_neg h1, if_pos h2]

theorem cart_add_product_branch (db : Db) (cartId pid : Nat) (product : Product) (q2 : Int)
    (hq : 1 ≤ q2 ∧ q2 ≤ 999) (hp : findProduct db pid = some product) :
    cart_add db cartId (some pid) none (some q2)
      = addLine db cartId (some pid) none (.prod product) "المنتج غير متوفر حالياً." q2.toNat := by
  simp only [cart_add]
  rw [if_neg (by omega : ¬(q2 < 1 ∨ 999 < q2)), if_neg (by simp), hp]

theorem cart_add_variant_branch (db : Db) (cartId vid : Nat) (variant : ProductVariant) (q2 : Int)
    (hq : 1 ≤ q2 ∧ q2 ≤ 999) (hv : findVariant db vid = some variant) :
    cart_add db cartId none (some vid) (some q2)
      = addLine db cartId none (some vid) (.var variant) "المتغير غير متوفر حالياً." q2.toNat := by
  simp only [cart_add]
  rw [if_neg (by omega : ¬(q2 < 1 ∨ 999 < q2)), if_neg (by simp), hv]

/-- C3: adding to an existing `(cart, product)` or `(cart, variant)` line
merges the quantities into the single existing row (never a second row); for
a tracked item the request is rejected with "unavailable" when stock is 0
and with "insufficient stock" when the merged total exceeds stock, and any
rejection leaves the database (hence the line's quantity) unchanged. -/
theorem C3_cart_add_merge (db : Db) (cartId : Nat) (q2 : Int)
    (pid : Nat) (product : Product) (itP : CartItem)
    (vid : Nat) (variant : ProductVariant) (itV : CartItem)
    (hq : 1 ≤ q2 ∧ q2 ≤ 999)
    (hp : findProduct db pid = some product)
    (hfp : db.items.find? (lineKey cartId (some pid) none) = some itP)
    (hcp : db.items.countP (lineKey cartId (some pid) none) ≤ 1)
    (hv : findVariant db vid = some variant)
    (hfv : db.items.find? (lineKey cartId none (some vid)) = some itV)
    (hcv : db.items.countP (lineKey cartId none (some vid)) ≤ 1) :
    ((product.track_inventory = true →
        1 ≤ product.stock_quantity ∧ itP.quantity + q2.toNat ≤ product.stock_quantity) →
      (cart_add db cartId (some pid) none (some q2)).1.ok = some true
      ∧ (cart_add db cartId (some pid) none (some q2)).2.items.filter
          (lineKey cartId (some pid) none)
        = [{ itP with quantity := itP.quantity + q2.toNat }])
    ∧ (product.track_inventory = true → product.stock_quantity = 0 →
      cart_add db cartId (some pid) none (some q2) = (resp400 "المنتج غير متوفر حالياً.", db))
    ∧ (product.track_inventory = true → 1 ≤ product.stock_quantity →
        product.stock_quantity < itP.quantity + q2.toNat →
      cart_add db cartId (some pid) none (some q2)
        = (resp400 "الكمية المطلوبة غير متوفرة بالمخزون.", db))
    ∧ ((variant.track_inventory = true →
        1 ≤ variant.stock_quantity ∧ itV.quantity + q2.toNat ≤ variant.stock_quantity) →
      (cart_add db cartId none (some vid) (some q2)).1.ok = some true
      ∧ (cart_add db cartId none (some vid) (some q2)).2.items.filter
          (lineKey cartId none (some vid))
        = [{ itV with quantity := itV.quantity + q2.toNat }])
    ∧ (variant.track_inventory = true → variant.stock_quantity = 0 →
      cart_add db cartId none (some vid) (some q2) = (resp400 "المتغير غير متوفر حالياً.", db))
    ∧ (variant.track_inventory = true → 1 ≤ variant.stock_quantity →
        variant.stock_quantity < itV.quantity + q2.toNat →
      cart_add db cartId none (some vid) (some q2)
        = (resp400 "الكمية المطلوبة غير متوفرة بالمخزون.", db)) := by
  rw [cart_add_product_branch db cartId pid product q2 hq hp,
    cart_add_variant_branch db cartId vid variant q2 hq hv]
  refine ⟨?_, ?_, ?_, ?_, ?_, ?_⟩
  · intro hpass
    refine addLine_merge db cartId (some pid) none (.prod product) _ q2.toNat itP hfp hcp ?_ ?_
    · rintro ⟨ht, hs⟩
      have := (hpass ht).1
      simp only [_get_stock_info] at hs
      omega
    · rintro ⟨ht, hs⟩
      have := (hpass ht).2
      simp only [_get_stock_info] at hs
      omega
  · intro ht hs0
    exact addLine_unavailable db cartId (some pid) none (.prod product) _ q2.toNat
      ⟨ht, by simp [_get_stock_info, hs0]⟩
  · intro ht hs1 hlt
    refine addLine_insufficient db cartId (some pid) none (.prod product) _ q2.toNat itP hfp ?_ ?_
    · rintro ⟨-, hs⟩
      simp only [_get_stock_info] at hs
      omega
    · exact ⟨ht, by simpa [_get_stock_info] using hlt⟩
  · intro hpass
    refine addLine_merge db cartId none (some vid) (.var variant) _ q2.toNat itV hfv hcv ?_ ?_
    · rintro ⟨ht, hs⟩
      have := (hpass ht).1
      simp only [_get_stock_info] at hs
      omega
    · rintro ⟨ht, hs⟩
      have := (hpass ht).2
      simp only [_get_stock_info] at hs
      omega
  · intro ht hs0
    exact addLine_unavailable db cartId none (some vid) (.var variant) _ q2.toNat
      ⟨ht, by simp [_get_stock_info, hs0]⟩
  · intro ht hs1 hlt
    refine addLine_insufficient db cartId none (some vid) (.var variant) _ q2.toNat itV hfv ?_ ?_
    · rintro ⟨-, hs⟩
      simp only [_get_stock_info] at hs
      omega
    · exact ⟨ht, by simpa [_get_stock_info] using hlt⟩

/-- C3 witness: on the concrete cart (stock 5, existing quantity 3), adding 2
merges to a single row of quantity 5, while adding 3 is rejected with the
insufficient-stock error and leaves the state unchanged. -/
theorem C3_cart_add_merge_witness :
    ((1 : Int) ≤ 2 ∧ (2 : Int) ≤ 999 ∧ (1 : Int) ≤ 3 ∧ (3 : Int) ≤ 999)
    ∧ ((cart_add wCartDb 1 (some 1) none (some 2)).1.ok = some true
      ∧ (cart_add wCartDb 1 (some 1) none (some 2)).2.items.filter
          (lineKey 1 (some 1) none)
        = [{ (⟨10, 1, some 1, none, 3⟩ : CartItem) with
              quantity := (⟨10, 1, some 1, none, 3⟩ : CartItem).quantity + (2 : Int).toNat }])
    ∧ (cart_add wCartDb 1 (some 1) none (some 3)
        = (resp400 "الكمية المطلوبة غير متوفرة بالمخزون.", wCartDb)) :=
  ⟨⟨by decide, by decide, by decide, by decide⟩,
    (C3_cart_add_merge wCartDb 1 2 1 ⟨1, 1000, "SAR", true, 5⟩ ⟨10, 1, some 1, none, 3⟩
        1 ⟨1, 2000, "USD", true, 5⟩ ⟨11, 1, none, some 1, 8⟩
        (by decide) (by decide) (by decide) (by decide) (by decide) (by decide) (by decide)).1
      (fun _ => by decide),
    (C3_cart_add_merge wCartDb 1 3 1 ⟨1, 1000, "SAR", true, 5⟩ ⟨10, 1, some 1, none, 3⟩
        1 ⟨1, 2000, "USD", true, 5⟩ ⟨11, 1, none, some 1, 8⟩
        (by decide) (by decide) (by decide) (by decide) (by decide) (by decide) (by decide)).2.2.1
      rfl (by decide) (by decide)⟩

/-- C2: on a quantity-update request for a tracked line with an in-range
quantity, a request exceeding positive stock is clamped to the stock (stored
and reported with `adjusted: true` plus a message), while stock 0 rejects
the update with HTTP 400 and `out_of_stock: true`, leaving the line (and the
whole database state) unchanged. -/
theorem C2_cart_update_stock (db : Db) (cartId itemId : Nat) (item : CartItem)
    (q : Int) (stock : Nat)
    (hfind : db.items.find? (fun it => it.id == itemId && it.cart == cartId) = some item)
    (hq1 : 1 ≤ q) (hq2 : q ≤ 999)
    (hts : item_stock_info db item = (true, stock)) :
    (1 ≤ stock → (stock : Int) < q →
      (cart_update db cartId itemId (some q) true).1.ok = some true
      ∧ (cart_update db cartId itemId (some q) true).1.adjusted = some true
      ∧ (cart_update db cartId itemId (some q) true).1.message = some (adjustedMsg stock)
      ∧ (cart_update db cartId itemId (some q) true).1.item_quantity = some stock
      ∧ (cart_update db cartId itemId (some q) true).2.items
          = db.items.map (fun r => if r.id = item.id then { r with quantity := stock } else r))
    ∧ (stock = 0 →
      (cart_update db cartId itemId (some q) true).1.status = 400
      ∧ (cart_update db cartId itemId (some q) true).1.out_of_stock = some true
      ∧ (cart_update db cartId itemId (some q) true).2 = db) := by
  have hr : ¬(q < 1 ∨ 999 < q) := by omega
  constructor
  · intro hs1 hlt
    have hcond : ¬((item_stock_info db item).1 = true ∧ (item_stock_info db item).2 ≤ 0) := by
      rw [hts]
      simp only [Prod.fst, Prod.snd]
      omega
    have hclamp : (item_stock_info db item).1 = true
        ∧ ((item_stock_info db item).2 : Int) < q := by
      rw [hts]
      exact ⟨rfl, hlt⟩
    simp only [cart_update, hfind]
    rw [if_neg hr, if_neg hcond, if_pos hclamp, hts]
    exact ⟨rfl, rfl, rfl, rfl, rfl⟩
  · intro hs0
    have hcond : (item_stock_info db item).1 = true ∧ (item_stock_info db item).2 ≤ 0 := by
      rw [hts]
      exact ⟨rfl, by omega⟩
    simp only [cart_update, hfind]
    rw [if_neg hr, if_pos hcond]
    exact ⟨rfl, rfl, rfl⟩

/-- C2 witness: updating the variant line of quantity 8 to 8 with stock 5
clamps to 5 with `adjusted`, and updating the stock-0 product line is
rejected with `out_of_stock`. -/
theorem C2_cart_update_stock_witness :
    (wCartDb.items.find? (fun it => it.id == (11 : Nat) && it.cart == (1 : Nat))
        = some ⟨11, 1, none, some 1, 8⟩
      ∧ (1 : Int) ≤ 8 ∧ (8 : Int) ≤ 999
      ∧ item_stock_info wCartDb ⟨11, 1, none, some 1, 8⟩ = (true, 5)
      ∧ item_stock_info wCartDb ⟨9, 2, some 2, none, 1⟩ = (true, 0))
    ∧ ((cart_update wCartDb 1 11 (some 8) true).1.ok = some true
      ∧ (cart_update wCartDb 1 11 (some 8) true).1.adjusted = some true
      ∧ (cart_update wCartDb 1 11 (some 8) true).1.message = some (adjustedMsg 5)
      ∧ (cart_update wCartDb 1 11 (some 8) true).1.item_quantity = some 5
      ∧ (cart_update wCartDb 1 11 (some 8) true).2.items
          = wCartDb.items.map
              (fun r => if r.id = (⟨11, 1, none, some 1, 8⟩ : CartItem).id
                then { r with quantity := 5 } else r))
    ∧ ((cart_update wCartDb 2 9 (some 1) true).1.status = 400
      ∧ (cart_update wCartDb 2 9 (some 1) true).1.out_of_stock = some true
      ∧ (cart_update wCartDb 2 9 (some 1) true).2 = wCartDb) :=
  ⟨⟨by decide, by decide, by decide, by decide, by decide⟩,
    (C2_cart_update_stock wCartDb 1 11 ⟨11, 1, none, some 1, 8⟩ 8 5
        (by decide) (by decide) (by decide) (by decide)).1 (by decide) (by decide),
    (C2_cart_update_stock wCartDb 2 9 ⟨9, 2, some 2, none, 1⟩ 1 0
        (by decide) (by decide) (by decide) (by decide)).2 rfl⟩

/-- The per-item currency computed by `_item_unit_price_and_currency` is
never the empty string (every branch falls back to `"SAR"`). -/
theorem iupc_currency_ne_empty (db : Db) (it : CartItem) :
    (_item_unit_price_and_currency db it).2 ≠ "" := by
  unfold _item_unit_price_and_currency strOr
  split
  · split
    · split <;> simp_all
    · simp
  · split
    · split
      · split <;> simp_all
      · simp
    · simp

theorem subtotalLoop_spec (db : Db) (l : List CartItem) :
    ∀ (s : Int) (c : String),
    subtotalLoop db l s c
      = (s + (l.map (fun it =>
            (_item_unit_price_and_currency db it).1 * (it.quantity : Int))).sum,
        match l.getLast? with
        | none => c
        | some it => (_item_unit_price_and_currency db it).2) := by
  induction l with
  | nil => intro s c; simp [subtotalLoop]
  | cons it rest ih =>
    intro s c
    simp only [subtotalLoop]
    rw [ih, if_pos (iupc_currency_ne_empty db it)]
    rw [Prod.ext_iff]
    constructor
    · simp only [List.map_cons, List.sum_cons]
      ring
    · cases rest with
      | nil => simp
      | cons b t =>
        rw [List.getLast?_cons_cons]
        cases hbt : (b :: t).getLast? with
        | none => simp at hbt
        | some x => simp

/-- C8: the cart subtotal computation sums `unit_price × quantity` across all
lines regardless of currency, and reports as the cart's currency the
currency of the last iterated line (silently adopting it when lines mix
currencies). -/
theorem C8_last_line_currency (db : Db) (cartId : Nat) (lastIt : CartItem)
    (hlast : (cartRows db cartId).getLast? = some lastIt) :
    (_calc_cart_subtotal db cartId).2 = (_item_unit_price_and_currency db lastIt).2
    ∧ (_calc_cart_subtotal db cartId).1
      = ((cartRows db cartId).map (fun it =>
          (_item_unit_price_and_currency db it).1 * (it.quantity : Int))).sum := by
  unfold _calc_cart_subtotal
  rw [subtotalLoop_spec]
  constructor
  · simp [hlast]
  · simp

/-- Cart 3 mixes currencies: a `"SAR"` product line followed by a `"USD"`
variant line. -/
def wMixDb : Db :=
  { products := [⟨1, 1000, "SAR", true, 5⟩],
    variants := [⟨1, 2000, "USD", true, 5⟩],
    items := [⟨30, 3, some 1, none, 2⟩, ⟨31, 3, none, some 1, 1⟩],
    nextItemId := 32 }

/-- C8 witness: on the mixed-currency cart the subtotal sums both lines and
the reported currency is the (USD) currency of the last line. -/
theorem C8_last_line_currency_witness :
    ((cartRows wMixDb 3).getLast? = some ⟨31, 3, none, some 1, 1⟩)
    ∧ ((_calc_cart_subtotal wMixDb 3).2
        = (_item_unit_price_and_currency wMixDb ⟨31, 3, none, some 1, 1⟩).2
      ∧ (_calc_cart_subtotal wMixDb 3).1
        = ((cartRows wMixDb 3).map (fun it =>
            (_item_unit_price_and_currency wMixDb it).1 * (it.quantity : Int))).sum) :=
  ⟨by decide, C8_last_line_currency wMixDb 3 ⟨31, 3, none, some 1, 1⟩ (by decide)⟩

theorem addLine_cart_count (db : Db) (cartId : Nat) (p v : Option Nat)
    (obj : StockHolder) (msg : String) (quantity : Nat) :
    (addLine db cartId p v obj msg quantity).1.cart_count = none
    ∨ (addLine db cartId p v obj msg quantity).1.cart_count
      = some (_cart_items_count (addLine db cartId p v obj msg quantity).2 cartId) := by
  simp only [addLine]
  repeat' split
  all_goals first | exact Or.inl rfl | exact Or.inr rfl

theorem cart_add_cart_count (db : Db) (cartId : Nat) (product_id variant_id : Option Nat)
    (qty : Option Int) :
    (cart_add db cartId product_id variant_id qty).1.cart_count = none
    ∨ (cart_add db cartId product_id variant_id qty).1.cart_count
      = some (_cart_items_count (cart_add db cartId product_id variant_id qty).2 cartId) := by
  rcases qty with _ | q
  · exact Or.inl rfl
  · rcases product_id with _ | pid <;> rcases variant_id with _ | vid <;>
      simp only [cart_add] <;> repeat' split
    all_goals first
      | exact Or.inl rfl
      | exact addLine_cart_count _ _ _ _ _ _ _

theorem cart_update_cart_count (db : Db) (cartId itemId : Nat) (qty : Option Int)
    (ajax : Bool) :
    (cart_update db cartId itemId qty ajax).1.cart_count = none
    ∨ (cart_update db cartId itemId qty ajax).1.cart_count
      = some (_cart_items_count (cart_update db cartId itemId qty ajax).2 cartId) := by
  simp only [cart_update]
  repeat' split
  all_goals first | exact Or.inl rfl | exact Or.inr rfl

theorem cart_remove_cart_count (db : Db) (cartId itemId : Nat) (ajax : Bool) :
    (cart_remove db cartId itemId ajax).1.cart_count = none
    ∨ (cart_remove db cartId itemId ajax).1.cart_count
      = some (_cart_items_count (cart_remove db cartId itemId ajax).2 cartId) := by
  simp only [cart_remove]
  repeat' split
  all_goals first | exact Or.inl rfl | exact Or.inr rfl

/-- Cart 1 holding a single line of quantity 5 (for the line-count contrast). -/
def wDb5 : Db :=
  { products := [], variants := [], items := [⟨1, 1, some 1, none, 5⟩], nextItemId := 2 }

/-- C9: every `cart_count` value returned by the summary, add, update and
remove endpoints is the sum of the quantities of the cart's lines in the
resulting state — e.g. a cart with one line of quantity 5 reports
`cart_count = 5` even though it has a single line. -/
theorem C9_cart_count_sum (db : Db) (cartId : Nat) (product_id variant_id : Option Nat)
    (qty uqty : Option Int) (itemId rItemId : Nat) (ajax rAjax : Bool) :
    (cart_summary db cartId).1.cart_count
      = some ((((cart_summary db cartId).2.items.filter (fun it => it.cart == cartId)).map
          (fun it => it.quantity)).sum)
    ∧ ((cart_add db cartId product_id variant_id qty).1.cart_count = none
      ∨ (cart_add db cartId product_id variant_id qty).1.cart_count
        = some ((((cart_add db cartId product_id variant_id qty).2.items.filter
            (fun it => it.cart == cartId)).map (fun it => it.quantity)).sum))
    ∧ ((cart_update db cartId itemId uqty ajax).1.cart_count = none
      ∨ (cart_update db cartId itemId uqty ajax).1.cart_count
        = some ((((cart_update db cartId itemId uqty ajax).2.items.filter
            (fun it => it.cart == cartId)).map (fun it => it.quantity)).sum))
    ∧ ((cart_remove db cartId rItemId rAjax).1.cart_count = none
      ∨ (cart_remove db cartId rItemId rAjax).1.cart_count
        = some ((((cart_remove db cartId rItemId rAjax).2.items.filter
            (fun it => it.cart == cartId)).map (fun it => it.quantity)).sum))
    ∧ (cart_summary wDb5 1).1.cart_count = some 5
    ∧ (wDb5.items.filter (fun it => it.cart == (1 : Nat))).length = 1 := by
  refine ⟨rfl, ?_, ?_, ?_, by decide, by decide⟩
  · exact cart_add_cart_count db cartId product_id variant_id qty
  · exact cart_update_cart_count db cartId itemId uqty ajax
  · exact cart_remove_cart_count db cartId rItemId rAjax

end Mortqz
